import Mathlib

/-! Verification of the Vulkan bring-up and render-loop orchestrator of
`src/Main.cpp`.

A shallow embedding of the core logic of `Main.cpp`: queue-family selection,
the post-creation sanity checks, the swapchain configuration, the GLFW
key-state map and key callback, and the render loop together with its teardown
sequence, modelled as an event trace.  External collaborators (the GLFW
library, the Vulkan driver, the Launchpad framework, the camera and the teapot
geometry) are modelled as oracles: the driver's answers are parameters, and
calls into the collaborators are recorded as events. -/

namespace VulkanMain

/-! Vulkan and GLFW constants used by `Main.cpp`. -/

/-- Constant `VK_QUEUE_GRAPHICS_BIT` (value `0x00000001` in `vulkan_core.h`). -/
def VK_QUEUE_GRAPHICS_BIT : Nat := 1

/-- Constant `VK_TRUE` (value 1). -/
def VK_TRUE : Nat := 1

/-- Constant `GLFW_PRESS` (value 1). -/
def GLFW_PRESS : Int := 1

/-- Constant `GLFW_RELEASE` (value 0). -/
def GLFW_RELEASE : Int := 0

/-- Constant `GLFW_KEY_ESCAPE` (value 256). -/
def GLFW_KEY_ESCAPE : Int := 256

/-- Constant `GLFW_RESIZABLE` (value `0x00020003`). -/
def GLFW_RESIZABLE : Nat := 0x00020003

/-- Constant `GLFW_FALSE` (value 0). -/
def GLFW_FALSE : Nat := 0

/-- Constant `GLFW_CLIENT_API` (value `0x00022001`). -/
def GLFW_CLIENT_API : Nat := 0x00022001

/-- Constant `GLFW_NO_API` (value 0). -/
def GLFW_NO_API : Nat := 0

/-! Queue-family selection (`selectQueueFamilyIndex`, lines 553-580).

The driver is modelled by the list of queue-family properties it reports and
by the `vkGetPhysicalDeviceSurfaceSupportKHR` oracle `present : Nat → Nat`,
which yields the `VkBool32` written for a given queue-family index. -/

/-- One entry of the array filled by `vkGetPhysicalDeviceQueueFamilyProperties`.
Only `queueFlags` is inspected by the program. -/
structure VkQueueFamilyProperties where
  queueFlags : Nat
deriving DecidableEq

/-- The `for` loop of `selectQueueFamilyIndex`, iterating over the remaining
queue families while `queue_family_index` counts up from the start index.
Result `none` models falling through to `VKL_EXIT_WITH_ERROR`. -/
def selectQueueFamilyFrom (present : Nat → Nat) :
    List VkQueueFamilyProperties → Nat → Option Nat
  | [], _ => none
  | qf :: rest, queue_family_index =>
    if qf.queueFlags &&& VK_QUEUE_GRAPHICS_BIT ≠ 0 then
      -- This queue supports graphics! Let's see if it also supports presentation:
      if present queue_family_index = VK_TRUE then
        some queue_family_index
      else
        selectQueueFamilyFrom present rest (queue_family_index + 1)
    else
      selectQueueFamilyFrom present rest (queue_family_index + 1)

/-- Model of `selectQueueFamilyIndex(physical_device, surface)`: scan the
driver-reported queue families from index 0.  `some i` models `return i`;
`none` models the fatal `VKL_EXIT_WITH_ERROR("Unable to find a suitable queue
family ...")`. -/
def selectQueueFamilyIndex (queue_families : List VkQueueFamilyProperties)
    (present : Nat → Nat) : Option Nat :=
  selectQueueFamilyFrom present queue_families 0

/-- Index `i` satisfies both predicates of the search: its queue flags include
`VK_QUEUE_GRAPHICS_BIT` and the presentation-support query returns `VK_TRUE`. -/
def familySuitable (queue_families : List VkQueueFamilyProperties)
    (present : Nat → Nat) (i : Nat) : Bool :=
  match queue_families.get? i with
  | some qf =>
      decide (qf.queueFlags &&& VK_QUEUE_GRAPHICS_BIT ≠ 0) && decide (present i = VK_TRUE)
  | none => false

/-- Task 1.5 of `main` (lines 209-216): call `selectQueueFamilyIndex`, then
re-query the queue-family count and exit fatally if the selected index is out
of range.  `Except.error` carries the `VKL_EXIT_WITH_ERROR` message. -/
def mainQueueFamilySelection (queue_families : List VkQueueFamilyProperties)
    (present : Nat → Nat) : Except String Nat :=
  match selectQueueFamilyIndex queue_families present with
  | none =>
      Except.error
        "Unable to find a suitable queue family that supports graphics and presentation on the same queue."
  | some selected_queue_family_index =>
      -- Sanity check if we have selected a valid queue family index:
      let queue_family_count := queue_families.length
      if queue_family_count ≤ selected_queue_family_index then
        Except.error "Invalid queue family index selected."
      else
        Except.ok selected_queue_family_index

/-! Swapchain configuration (Task 1.7, lines 270-329).

The driver's answers — `hlpGetPhysicalDeviceSurfaceCapabilities` and
`hlpGetSurfaceImageFormat` — are modelled as parameters. -/

/-- Model of `VkExtent2D`. -/
structure VkExtent2D where
  width : Nat
  height : Nat
deriving DecidableEq

/-- The fields of `VkSurfaceCapabilitiesKHR` that are relevant here:
`minImageCount` and `currentTransform` are read by the program,
`currentExtent` is reported by the driver but ignored by the program. -/
structure VkSurfaceCapabilitiesKHR where
  minImageCount : Nat
  currentTransform : Nat
  currentExtent : VkExtent2D
deriving DecidableEq

/-- Model of `VkSurfaceFormatKHR`, as returned by `hlpGetSurfaceImageFormat`. -/
structure VkSurfaceFormatKHR where
  format : Nat
  colorSpace : Nat
deriving DecidableEq

/-- Sharing modes of `VkSharingMode` used by the program. -/
inductive VkSharingMode where
  | exclusive
  | concurrent
deriving DecidableEq

/-- Present modes of `VkPresentModeKHR`. -/
inductive VkPresentModeKHR where
  | immediate
  | mailbox
  | fifo
  | fifoRelaxed
deriving DecidableEq

/-- The fields of `VkSwapchainCreateInfoKHR` that `main` fills in. -/
structure VkSwapchainCreateInfoKHR where
  minImageCount : Nat
  imageArrayLayers : Nat
  preTransform : Nat
  clipped : Bool
  imageSharingMode : VkSharingMode
  queueFamilyIndices : List Nat
  imageFormat : Nat
  imageColorSpace : Nat
  imageExtent : VkExtent2D
  presentMode : VkPresentModeKHR
deriving DecidableEq

/-- Compile-time constant `window_width` (`constexpr int`, line 83). -/
def window_width : Nat := 800

/-- Compile-time constant `window_height` (`constexpr int`, line 84). -/
def window_height : Nat := 800

/-- The window hints set before `glfwCreateWindow` (lines 95-96), as
(hint, value) pairs in call order. -/
def mainWindowHints : List (Nat × Nat) :=
  [(GLFW_CLIENT_API, GLFW_NO_API), (GLFW_RESIZABLE, GLFW_FALSE)]

/-- The `swapchain_create_info` struct built in `main` (lines 275-294). -/
def mainSwapchainCreateInfo (surface_capabilities : VkSurfaceCapabilitiesKHR)
    (surface_format : VkSurfaceFormatKHR)
    (selected_queue_family_index : Nat) : VkSwapchainCreateInfoKHR :=
  { minImageCount := surface_capabilities.minImageCount
    imageArrayLayers := 1
    preTransform := surface_capabilities.currentTransform
    clipped := true
    imageSharingMode := VkSharingMode.exclusive
    queueFamilyIndices := [selected_queue_family_index]
    imageFormat := surface_format.format
    imageColorSpace := surface_format.colorSpace
    imageExtent := { width := window_width, height := window_height }
    presentMode := VkPresentModeKHR.fifo }

/-- The checks after `vkGetSwapchainImagesKHR` in `main` (lines 312-328):
the `swap_chain_images.empty()` guard, then the image-count invariant.
`swap_chain_images` is sized to `surface_capabilities.minImageCount`;
`image_count` is seeded with the same value and then overwritten by
`vkGetSwapchainImagesKHR` — the value the driver writes back is the
`driver_written_count` parameter. -/
def retrieveSwapchainImages (min_image_count : Nat)
    (driver_written_count : Nat) : Except String Nat :=
  let swap_chain_images_size := min_image_count
  let image_count := driver_written_count
  if swap_chain_images_size = 0 then
    Except.error "Swap chain images not retrieved."
  else if image_count ≠ min_image_count then
    Except.error "image count mismatch"
  else
    Except.ok image_count

/-! GLFW key handling (lines 504-525).

The map `g_isGlfwKeyDown` is a `std::unordered_map<int, bool>`: `operator[]`
on an absent key default-constructs the value `false`, so the map is modelled
as a total function `Int → Bool` that starts out constantly `false`.  The GLFW
window's should-close flag is carried alongside it, since the key callback may
set it via `glfwSetWindowShouldClose`. -/

/-- The global input state: the `g_isGlfwKeyDown` map and the GLFW window's
should-close flag. -/
structure InputState where
  isGlfwKeyDown : Int → Bool
  windowShouldClose : Bool

/-- The state before any key event: `g_isGlfwKeyDown` is empty (every lookup
default-constructs `false`) and the window is not marked to close. -/
def initialInputState : InputState :=
  { isGlfwKeyDown := fun _ => false, windowShouldClose := false }

/-- Model of `handleGlfwKeyCallback(glfw_window, key, scancode, action, mods)`:
record presses and releases in `g_isGlfwKeyDown`, and mark the window to close
on an ESC release.  `scancode` and `mods` are ignored, as in the source. -/
def handleGlfwKeyCallback (st : InputState)
    (key _scancode action _mods : Int) : InputState :=
  let st :=
    if action = GLFW_PRESS then
      { st with isGlfwKeyDown := fun k => if k = key then true else st.isGlfwKeyDown k }
    else st
  let st :=
    if action = GLFW_RELEASE then
      { st with isGlfwKeyDown := fun k => if k = key then false else st.isGlfwKeyDown k }
    else st
  -- We mark the window that it should close if ESC is pressed:
  if action = GLFW_RELEASE ∧ key = GLFW_KEY_ESCAPE then
    { st with windowShouldClose := true }
  else st

/-- Model of `isKeyDown(glfw_key_code)`: look the key up in `g_isGlfwKeyDown`. -/
def isKeyDown (st : InputState) (glfw_key_code : Int) : Bool :=
  st.isGlfwKeyDown glfw_key_code

/-- A key event as delivered by GLFW to the registered callback. -/
structure GlfwKeyEvent where
  key : Int
  scancode : Int
  action : Int
  mods : Int
deriving DecidableEq

/-- Model of `glfwPollEvents()`: deliver the pending events to the registered
`handleGlfwKeyCallback`, in order. -/
def glfwPollEvents (st : InputState) (pending : List GlfwKeyEvent) : InputState :=
  pending.foldl
    (fun s e => handleGlfwKeyCallback s e.key e.scancode e.action e.mods) st

/-! The render loop and teardown (Tasks 1.8-1.10, lines 386-493).

The loop and the surrounding resource lifecycle are modelled as an event
trace.  The color and matrix payloads of `UniformBufferData` are opaque type
parameters `Col` and `Mat` (the program never computes with them, it only
copies them around); the camera collaborator is the oracle
`camera_matrix : Nat → Mat` giving the view-projection matrix fetched in frame
`n`, and the pending GLFW events of frame `n` are `pending n`. -/

/-- Model of `struct UniformBufferData` (lines 386-392): a color vector and a
transformation matrix. -/
structure UniformBufferData (Col Mat : Type) where
  color : Col
  transformation : Mat
deriving DecidableEq

/-- One call into a collaborator, in the order `main` makes them. -/
inductive Event (Col Mat : Type) where
  | createWindow
  | initFramework
  | createGraphicsPipeline
  | createUniformBuffer
  | createDescriptorPool
  | createDescriptorSetLayout
  | allocateDescriptorSet
  | updateDescriptorSets
  | createCamera
  | teapotCreateGeometryAndBuffers
  | pollEvents
  | updateCamera
  | getCameraViewProjectionMatrix
  | copyIntoUniformBuffer (data : UniformBufferData Col Mat)
  | waitForNextSwapchainImage
  | startRecordingCommands
  | teapotDraw
  | endRecordingCommands
  | presentCurrentSwapchainImage
  | deviceWaitIdle
  | destroyCamera
  | destroyUniformBuffer
  | destroyGraphicsPipeline
  | teapotDestroyBuffers
  | destroyFramework
  | glfwTerminate
deriving DecidableEq

/-- The mutable state the render loop touches: the GLFW input state, the CPU
copy `uniform_buffer_data`, and the contents of the GPU-visible
`vk_uniform_buffer`. -/
structure FrameState (Col Mat : Type) where
  input : InputState
  uniform_buffer_data : UniformBufferData Col Mat
  gpuBuffer : UniformBufferData Col Mat

/-- The body of the `while` loop (lines 465-475), in source order:
poll events, update the camera, fetch the view-projection matrix and overwrite
`uniform_buffer_data.transformation`, copy the full struct into the
GPU-visible buffer, wait for the next swapchain image, record commands
(begin, teapot draw, end), present. -/
def renderLoopIteration {Col Mat : Type} (camera_matrix : Mat)
    (pending : List GlfwKeyEvent) (st : FrameState Col Mat) :
    FrameState Col Mat × List (Event Col Mat) :=
  -- glfwPollEvents(); // Handle user input
  let input := glfwPollEvents st.input pending
  -- vklUpdateCamera(camera);
  -- glm::mat4 matrix = vklGetCameraViewProjectionMatrix(camera);
  let matrix := camera_matrix
  -- uniform_buffer_data.transformation = matrix;
  let uniform_buffer_data :=
    { st.uniform_buffer_data with transformation := matrix }
  -- vklCopyDataIntoHostCoherentBuffer(vk_uniform_buffer, &uniform_buffer_data, sizeof(uniform_buffer_data));
  let gpuBuffer := uniform_buffer_data
  (⟨input, uniform_buffer_data, gpuBuffer⟩,
   [Event.pollEvents, Event.updateCamera, Event.getCameraViewProjectionMatrix,
    Event.copyIntoUniformBuffer uniform_buffer_data,
    Event.waitForNextSwapchainImage, Event.startRecordingCommands,
    Event.teapotDraw, Event.endRecordingCommands,
    Event.presentCurrentSwapchainImage])

/-- Model of `while (!glfwWindowShouldClose(window)) { ... }` (line 464), with
`fuel` bounding how many more iterations we observe and `frame` counting
iterations so the oracles can vary per frame. -/
def renderLoop {Col Mat : Type} (camera_matrix : Nat → Mat)
    (pending : Nat → List GlfwKeyEvent) :
    Nat → Nat → FrameState Col Mat → FrameState Col Mat × List (Event Col Mat)
  | 0, _, st => (st, [])
  | fuel + 1, frame, st =>
    if st.input.windowShouldClose then (st, [])
    else
      let step := renderLoopIteration (camera_matrix frame) (pending frame) st
      let rest := renderLoop camera_matrix pending fuel (frame + 1) step.1
      (rest.1, step.2 ++ rest.2)

/-- The resource-creating and wiring calls before the loop, in source order:
window (line 99), framework init (361), pipeline (403), uniform buffer (405),
initial upload (408), descriptor pool (421), descriptor-set layout (430),
descriptor-set allocation (440), descriptor write (455), camera (457), teapot
geometry (459). -/
def mainSetupTrace {Col Mat : Type}
    (initial : UniformBufferData Col Mat) : List (Event Col Mat) :=
  [Event.createWindow, Event.initFramework, Event.createGraphicsPipeline,
   Event.createUniformBuffer, Event.copyIntoUniformBuffer initial,
   Event.createDescriptorPool, Event.createDescriptorSetLayout,
   Event.allocateDescriptorSet, Event.updateDescriptorSets,
   Event.createCamera, Event.teapotCreateGeometryAndBuffers]

/-- The calls after the loop, in source order: `vkDeviceWaitIdle` (line 479),
then the destroy calls of Task 1.10 (lines 485-491). -/
def mainTeardownTrace {Col Mat : Type} : List (Event Col Mat) :=
  [Event.deviceWaitIdle, Event.destroyCamera, Event.destroyUniformBuffer,
   Event.destroyGraphicsPipeline, Event.teapotDestroyBuffers,
   Event.destroyFramework, Event.glfwTerminate]

/-- The state at loop entry: no key event seen yet, window not closing, and
the GPU buffer holding the initial upload of `uniform_buffer_data`. -/
def initialFrameState {Col Mat : Type}
    (initial : UniformBufferData Col Mat) : FrameState Col Mat :=
  ⟨initialInputState, initial, initial⟩

/-- The full collaborator-call trace of `main` from window creation to exit. -/
def mainTrace {Col Mat : Type} (camera_matrix : Nat → Mat)
    (pending : Nat → List GlfwKeyEvent) (fuel : Nat)
    (initial : UniformBufferData Col Mat) : List (Event Col Mat) :=
  mainSetupTrace initial ++
    (renderLoop camera_matrix pending fuel 0 (initialFrameState initial)).2 ++
    mainTeardownTrace

/-- The events the loop body can emit. -/
def isRenderLoopEvent {Col Mat : Type} : Event Col Mat → Bool
  | Event.pollEvents | Event.updateCamera | Event.getCameraViewProjectionMatrix
  | Event.copyIntoUniformBuffer _ | Event.waitForNextSwapchainImage
  | Event.startRecordingCommands | Event.teapotDraw
  | Event.endRecordingCommands | Event.presentCurrentSwapchainImage => true
  | _ => false

/-- Descriptor pool/layout/set creation or (re)writing. -/
def isDescriptorWiring {Col Mat : Type} : Event Col Mat → Bool
  | Event.createDescriptorPool | Event.createDescriptorSetLayout
  | Event.allocateDescriptorSet | Event.updateDescriptorSets => true
  | _ => false

/-- Presentation and command-recording calls. -/
def isPresentationOrRecording {Col Mat : Type} : Event Col Mat → Bool
  | Event.startRecordingCommands | Event.teapotDraw
  | Event.endRecordingCommands | Event.presentCurrentSwapchainImage => true
  | _ => false

/-- The resources whose creation and destruction `main` owns. -/
inductive Resource where
  | window
  | framework
  | pipeline
  | uniformBuffer
  | camera
  | geometryBuffers
deriving DecidableEq

/-- Which resource an event creates, if any. -/
def creationResource {Col Mat : Type} : Event Col Mat → Option Resource
  | Event.createWindow => some Resource.window
  | Event.initFramework => some Resource.framework
  | Event.createGraphicsPipeline => some Resource.pipeline
  | Event.createUniformBuffer => some Resource.uniformBuffer
  | Event.createCamera => some Resource.camera
  | Event.teapotCreateGeometryAndBuffers => some Resource.geometryBuffers
  | _ => none

/-- Which resource an event destroys, if any. -/
def destructionResource {Col Mat : Type} : Event Col Mat → Option Resource
  | Event.glfwTerminate => some Resource.window
  | Event.destroyFramework => some Resource.framework
  | Event.destroyGraphicsPipeline => some Resource.pipeline
  | Event.destroyUniformBuffer => some Resource.uniformBuffer
  | Event.destroyCamera => some Resource.camera
  | Event.teapotDestroyBuffers => some Resource.geometryBuffers
  | _ => none

/-- The resources a trace creates, in order. -/
def creationOrder {Col Mat : Type} (trace : List (Event Col Mat)) : List Resource :=
  trace.filterMap creationResource

/-- The resources a trace destroys, in order. -/
def destructionOrder {Col Mat : Type} (trace : List (Event Col Mat)) : List Resource :=
  trace.filterMap destructionResource

/-- The per-iteration state change the spec describes: events polled, the
transformation field overwritten with the fetched view-projection matrix, and
the full uniform struct copied into the GPU-visible buffer. -/
def nextFrameState {Col Mat : Type} (camera_matrix : Nat → Mat)
    (pending : Nat → List GlfwKeyEvent) (frame : Nat)
    (st : FrameState Col Mat) : FrameState Col Mat :=
  { input := glfwPollEvents st.input (pending frame)
    uniform_buffer_data :=
      { color := st.uniform_buffer_data.color, transformation := camera_matrix frame }
    gpuBuffer :=
      { color := st.uniform_buffer_data.color, transformation := camera_matrix frame } }

/-- The per-iteration call sequence the spec describes, in its order:
poll, camera update, matrix fetch, copy the full uniform struct, wait for the
next swapchain image, begin recording, draw, end recording, present. -/
def runningIterationEvents {Col Mat : Type} (camera_matrix : Nat → Mat)
    (frame : Nat) (st : FrameState Col Mat) : List (Event Col Mat) :=
  [Event.pollEvents, Event.updateCamera, Event.getCameraViewProjectionMatrix,
   Event.copyIntoUniformBuffer
     { color := st.uniform_buffer_data.color, transformation := camera_matrix frame },
   Event.waitForNextSwapchainImage, Event.startRecordingCommands,
   Event.teapotDraw, Event.endRecordingCommands,
   Event.presentCurrentSwapchainImage]

/-! Concrete driver and collaborator behaviours used to witness the theorems
on explicit inputs. -/

/-- Concrete queue-family table: family 0 lacks graphics, family 1 has
graphics but no presentation support, family 2 has both. -/
def witnessQueueFamilies : List VkQueueFamilyProperties :=
  [⟨8⟩, ⟨1⟩, ⟨5⟩]

/-- Presentation-support oracle matching `witnessQueueFamilies`: only index 2
presents. -/
def witnessPresent : Nat → Nat := fun i => if i = 2 then 1 else 0

/-- A camera oracle for concrete runs: the matrix payload is `0` each frame. -/
def constCameraMatrix : Nat → Nat := fun _ => 0

/-- An input oracle for concrete runs: no key events are ever pending. -/
def noPendingEvents : Nat → List GlfwKeyEvent := fun _ => []

/-- An event list delivering exactly one Escape-release event. -/
def escapeReleaseOnly : List GlfwKeyEvent :=
  [⟨GLFW_KEY_ESCAPE, 0, GLFW_RELEASE, 0⟩]

/-- A concrete loop state that is still running. -/
def openFrameStateNat : FrameState Nat Nat := initialFrameState ⟨0, 0⟩

/-- A concrete loop state whose close-requested flag is set. -/
def closedFrameStateNat : FrameState Nat Nat :=
  ⟨⟨fun _ => false, true⟩, ⟨0, 0⟩, ⟨0, 0⟩⟩

/-! Theorems.  First the helper lemmas about the embedded operations, then one
theorem per claim (each claim's doc comment names the claim). -/

theorem familySuitable_lt_length {queue_families : List VkQueueFamilyProperties}
    {present : Nat → Nat} {i : Nat} (h : familySuitable queue_families present i = true) :
    i < queue_families.length := by
  unfold familySuitable at h
  cases hg : queue_families.get? i with
  | none => rw [hg] at h; exact absurd h (by simp)
  | some qf =>
      have := List.get?_eq_some.mp hg
      exact this.1

theorem selectFrom_some_spec (present : Nat → Nat)
    (queue_families : List VkQueueFamilyProperties) :
    ∀ (l : List VkQueueFamilyProperties) (i j : Nat), queue_families.drop i = l →
      selectQueueFamilyFrom present l i = some j →
      i ≤ j ∧ familySuitable queue_families present j = true ∧
        ∀ k, i ≤ k → k < j → familySuitable queue_families present k = false := by
  intro l
  induction l with
  | nil =>
      intro i j _ h
      simp [selectQueueFamilyFrom] at h
  | cons qf rest ih =>
      intro i j hdrop h
      have hget : queue_families.get? i = some qf := by
        have h0 : (queue_families.drop i).get? 0 = some qf := by rw [hdrop]; rfl
        rwa [List.get?_drop, Nat.add_zero] at h0
      have hdrop' : queue_families.drop (i + 1) = rest := by
        have := congrArg List.tail hdrop
        rwa [List.tail_drop] at this
      have hsuit : familySuitable queue_families present i =
          (decide (qf.queueFlags &&& VK_QUEUE_GRAPHICS_BIT ≠ 0) &&
            decide (present i = VK_TRUE)) := by
        unfold familySuitable
        rw [hget]
      by_cases hg : qf.queueFlags &&& VK_QUEUE_GRAPHICS_BIT ≠ 0
      · by_cases hp : present i = VK_TRUE
        · have hj : j = i := by
            simp [selectQueueFamilyFrom, hg, hp] at h
            omega
          subst hj
          refine ⟨Nat.le_refl _, ?_, ?_⟩
          · rw [hsuit]; simp [hg, hp]
          · intro k hik hki; omega
        · have h' : selectQueueFamilyFrom present rest (i + 1) = some j := by
            simpa [selectQueueFamilyFrom, hg, hp] using h
          obtain ⟨hij, hsj, hmin⟩ := ih (i + 1) j hdrop' h'
          refine ⟨by omega, hsj, ?_⟩
          intro k hik hkj
          rcases Nat.eq_or_lt_of_le hik with hk | hk
          · rw [← hk, hsuit]; simp [hp]
          · exact hmin k hk hkj
      · have h' : selectQueueFamilyFrom present rest (i + 1) = some j := by
          simpa [selectQueueFamilyFrom, hg] using h
        obtain ⟨hij, hsj, hmin⟩ := ih (i + 1) j hdrop' h'
        refine ⟨by omega, hsj, ?_⟩
        intro k hik hkj
        rcases Nat.eq_or_lt_of_le hik with hk | hk
        · rw [← hk, hsuit]; simp [hg]
        · exact hmin k hk hkj

theorem selectFrom_none_spec (present : Nat → Nat)
    (queue_families : List VkQueueFamilyProperties) :
    ∀ (l : List VkQueueFamilyProperties) (i : Nat), queue_families.drop i = l →
      selectQueueFamilyFrom present l i = none →
      ∀ k, i ≤ k → familySuitable queue_families present k = false := by
  intro l
  induction l with
  | nil =>
      intro i hdrop _ k hik
      have hlen : queue_families.length ≤ i := by
        have := List.drop_eq_nil_iff_le.mp hdrop
        exact this
      unfold familySuitable
      have : queue_families.get? k = none := List.get?_eq_none.mpr (by omega)
      rw [this]
  | cons qf rest ih =>
      intro i hdrop h k hik
      have hget : queue_families.get? i = some qf := by
        have h0 : (queue_families.drop i).get? 0 = some qf := by rw [hdrop]; rfl
        rwa [List.get?_drop, Nat.add_zero] at h0
      have hdrop' : queue_families.drop (i + 1) = rest := by
        have := congrArg List.tail hdrop
        rwa [List.tail_drop] at this
      have hsuit : familySuitable queue_families present i =
          (decide (qf.queueFlags &&& VK_QUEUE_GRAPHICS_BIT ≠ 0) &&
            decide (present i = VK_TRUE)) := by
        unfold familySuitable
        rw [hget]
      by_cases hg : qf.queueFlags &&& VK_QUEUE_GRAPHICS_BIT ≠ 0
      · by_cases hp : present i = VK_TRUE
        · simp [selectQueueFamilyFrom, hg, hp] at h
        · have h' : selectQueueFamilyFrom present rest (i + 1) = none := by
            simpa [selectQueueFamilyFrom, hg, hp] using h
          rcases Nat.eq_or_lt_of_le hik with hk | hk
          · rw [← hk, hsuit]; simp [hp]
          · exact ih (i + 1) hdrop' h' k hk
      · have h' : selectQueueFamilyFrom present rest (i + 1) = none := by
          simpa [selectQueueFamilyFrom, hg] using h
        rcases Nat.eq_or_lt_of_le hik with hk | hk
        · rw [← hk, hsuit]; simp [hg]
        · exact ih (i + 1) hdrop' h' k hk

/-- C1: `selectQueueFamilyIndex` enumerates the device's queue families in
driver-reported order and returns the lowest index whose queue flags include
graphics capability and whose presentation-support query returns true; if no
family qualifies it takes the fatal error path (`none`, modelling
`VKL_EXIT_WITH_ERROR`) and never returns an out-of-range index. -/
theorem selectQueueFamilyIndex_lowest_suitable_or_fatal
    (queue_families : List VkQueueFamilyProperties) (present : Nat → Nat) :
    (∀ j, selectQueueFamilyIndex queue_families present = some j →
      j < queue_families.length ∧
      familySuitable queue_families present j = true ∧
      ∀ k, k < j → familySuitable queue_families present k = false) ∧
    (selectQueueFamilyIndex queue_families present = none →
      ∀ k, familySuitable queue_families present k = false) := by
  constructor
  · intro j h
    obtain ⟨_, hsj, hmin⟩ :=
      selectFrom_some_spec present queue_families queue_families 0 j
        (List.drop_zero _) h
    exact ⟨familySuitable_lt_length hsj, hsj, fun k hk => hmin k (Nat.zero_le k) hk⟩
  · intro h k
    exact selectFrom_none_spec present queue_families queue_families 0
      (List.drop_zero _) h k (Nat.zero_le k)

theorem selectQueueFamilyIndex_lowest_suitable_or_fatal_witness :
    selectQueueFamilyIndex witnessQueueFamilies witnessPresent = some 2 ∧
      (2 < witnessQueueFamilies.length ∧
       familySuitable witnessQueueFamilies witnessPresent 2 = true ∧
       ∀ k, k < 2 → familySuitable witnessQueueFamilies witnessPresent k = false) :=
  ⟨by decide,
   (selectQueueFamilyIndex_lowest_suitable_or_fatal witnessQueueFamilies
      witnessPresent).1 2 (by decide)⟩

/-- C7: the queue-family index used to create the logical device always
satisfies `index < queue_family_count`; whenever the selector returns normally
the re-checked invariant holds, so the `"Invalid queue family index selected."`
error branch of `main` is unreachable. -/
theorem mainQueueFamilySelection_index_in_range
    (queue_families : List VkQueueFamilyProperties) (present : Nat → Nat) :
    (∀ j, selectQueueFamilyIndex queue_families present = some j →
      j < queue_families.length ∧
      mainQueueFamilySelection queue_families present = Except.ok j) ∧
    mainQueueFamilySelection queue_families present ≠
      Except.error "Invalid queue family index selected." := by
  have hrange : ∀ j, selectQueueFamilyIndex queue_families present = some j →
      j < queue_families.length := by
    intro j h
    obtain ⟨_, hsj, _⟩ :=
      selectFrom_some_spec present queue_families queue_families 0 j
        (List.drop_zero _) h
    exact familySuitable_lt_length hsj
  constructor
  · intro j h
    refine ⟨hrange j h, ?_⟩
    unfold mainQueueFamilySelection
    rw [h]
    have := hrange j h
    simp
    omega
  · unfold mainQueueFamilySelection
    cases hsel : selectQueueFamilyIndex queue_families present with
    | none => simp
    | some j =>
        have := hrange j hsel
        simp
        omega

theorem mainQueueFamilySelection_index_in_range_witness :
    2 < witnessQueueFamilies.length ∧
      mainQueueFamilySelection witnessQueueFamilies witnessPresent = Except.ok 2 :=
  (mainQueueFamilySelection_index_in_range witnessQueueFamilies witnessPresent).1
    2 (by decide)

/-- C6: the swapchain configuration requests exclusive image sharing with
exactly the one selected queue family index, the FIFO present mode, and a
minimum image count equal to the driver-reported surface minimum. -/
theorem mainSwapchainCreateInfo_sharing_present_count
    (surface_capabilities : VkSurfaceCapabilitiesKHR)
    (surface_format : VkSurfaceFormatKHR) (selected_queue_family_index : Nat) :
    (mainSwapchainCreateInfo surface_capabilities surface_format
        selected_queue_family_index).imageSharingMode = VkSharingMode.exclusive ∧
    (mainSwapchainCreateInfo surface_capabilities surface_format
        selected_queue_family_index).queueFamilyIndices =
      [selected_queue_family_index] ∧
    (mainSwapchainCreateInfo surface_capabilities surface_format
        selected_queue_family_index).presentMode = VkPresentModeKHR.fifo ∧
    (mainSwapchainCreateInfo surface_capabilities surface_format
        selected_queue_family_index).minImageCount =
      surface_capabilities.minImageCount :=
  ⟨rfl, rfl, rfl, rfl⟩

/-- C10: the swapchain image extent is the fixed compile-time 800x800 window
size — independent of the driver-reported current surface extent — and the
window is created with the resizable hint disabled, so the surface extent
cannot change during a run. -/
theorem mainSwapchainCreateInfo_extent_fixed
    (surface_capabilities : VkSurfaceCapabilitiesKHR)
    (surface_format : VkSurfaceFormatKHR) (selected_queue_family_index : Nat) :
    (mainSwapchainCreateInfo surface_capabilities surface_format
        selected_queue_family_index).imageExtent =
      { width := window_width, height := window_height } ∧
    window_width = 800 ∧ window_height = 800 ∧
    (∀ other_capabilities : VkSurfaceCapabilitiesKHR,
      (mainSwapchainCreateInfo other_capabilities surface_format
          selected_queue_family_index).imageExtent =
        (mainSwapchainCreateInfo surface_capabilities surface_format
            selected_queue_family_index).imageExtent) ∧
    (GLFW_RESIZABLE, GLFW_FALSE) ∈ mainWindowHints :=
  ⟨rfl, rfl, rfl, fun _ => rfl, by decide⟩

/-- C3: after swapchain creation the retrieved image count must equal the
requested minimum (the driver-reported surface minimum); a driver writing back
any different count triggers the fatal `"image count mismatch"` error path
instead of being silently tolerated. -/
theorem retrieveSwapchainImages_count_invariant
    (min_image_count driver_written_count : Nat) (hmin : 0 < min_image_count) :
    (driver_written_count = min_image_count →
      retrieveSwapchainImages min_image_count driver_written_count =
        Except.ok min_image_count) ∧
    (driver_written_count ≠ min_image_count →
      retrieveSwapchainImages min_image_count driver_written_count =
        Except.error "image count mismatch") := by
  constructor
  · intro h
    subst h
    unfold retrieveSwapchainImages
    simp
    omega
  · intro h
    unfold retrieveSwapchainImages
    simp [h]
    omega

theorem retrieveSwapchainImages_count_invariant_witness :
    0 < 3 ∧
      retrieveSwapchainImages 3 3 = Except.ok 3 ∧
      retrieveSwapchainImages 3 4 = Except.error "image count mismatch" :=
  ⟨by decide,
   (retrieveSwapchainImages_count_invariant 3 3 (by decide)).1 (by decide),
   (retrieveSwapchainImages_count_invariant 3 4 (by decide)).2 (by decide)⟩

theorem handleGlfwKeyCallback_other_key (st : InputState)
    (key scancode action mods k : Int) (hne : k ≠ key) :
    (handleGlfwKeyCallback st key scancode action mods).isGlfwKeyDown k =
      st.isGlfwKeyDown k := by
  unfold handleGlfwKeyCallback
  by_cases hp : action = GLFW_PRESS
  · subst hp
    have hr : ¬((GLFW_PRESS : Int) = GLFW_RELEASE) := by decide
    simp [hr, hne]
  · by_cases hr : action = GLFW_RELEASE
    · subst hr
      have hp' : ¬((GLFW_RELEASE : Int) = GLFW_PRESS) := by decide
      by_cases hesc : key = GLFW_KEY_ESCAPE
      · simp [hp', hesc, hne]
        exact fun _ hk => hne (hk.trans hesc.symm)
      · simp [hp', hesc, hne]
    · have he : ¬(action = GLFW_RELEASE ∧ key = GLFW_KEY_ESCAPE) :=
        fun h => hr h.1
      simp [hp, hr, he, hne]

/-- C9: `isKeyDown` on a code that was never delivered in any key event
returns false (the `unordered_map` default) rather than failing; after a press
event for that code it returns true, and after a subsequent release event it
returns false again. -/
theorem isKeyDown_default_press_release (k : Int) :
    isKeyDown initialInputState k = false ∧
    (∀ pending : List GlfwKeyEvent, (∀ e ∈ pending, e.key ≠ k) →
      isKeyDown (glfwPollEvents initialInputState pending) k = false) ∧
    (∀ st : InputState, ∀ scancode mods : Int,
      isKeyDown (handleGlfwKeyCallback st k scancode GLFW_PRESS mods) k = true) ∧
    (∀ st : InputState, ∀ scancode mods scancode' mods' : Int,
      isKeyDown
        (handleGlfwKeyCallback
          (handleGlfwKeyCallback st k scancode GLFW_PRESS mods)
          k scancode' GLFW_RELEASE mods') k = false) := by
  refine ⟨rfl, ?_, ?_, ?_⟩
  · intro pending
    suffices h : ∀ st : InputState, (∀ e ∈ pending, e.key ≠ k) →
        isKeyDown (glfwPollEvents st pending) k = isKeyDown st k by
      intro hne
      rw [h initialInputState hne]; rfl
    induction pending with
    | nil => intro st _; rfl
    | cons e rest ih =>
        intro st hne
        have hek : e.key ≠ k := hne e (List.mem_cons_self e rest)
        have hrest : ∀ e' ∈ rest, e'.key ≠ k :=
          fun e' he' => hne e' (List.mem_cons_of_mem e he')
        unfold glfwPollEvents at ih ⊢
        rw [List.foldl_cons, ih _ hrest]
        unfold isKeyDown
        exact handleGlfwKeyCallback_other_key st e.key e.scancode e.action e.mods k
          fun h => hek h.symm
  · intro st scancode mods
    unfold isKeyDown handleGlfwKeyCallback
    by_cases he : (GLFW_PRESS : Int) = GLFW_RELEASE ∧ k = GLFW_KEY_ESCAPE <;>
      simp [GLFW_PRESS, GLFW_RELEASE, he]
  · intro st scancode mods scancode' mods'
    unfold isKeyDown handleGlfwKeyCallback
    have hp' : ¬((GLFW_RELEASE : Int) = GLFW_PRESS) := by decide
    have hr : ¬((GLFW_PRESS : Int) = GLFW_RELEASE) := by decide
    simp [hp', hr]
    split <;> simp

theorem isKeyDown_default_press_release_witness :
    isKeyDown (glfwPollEvents initialInputState
        [⟨65, 0, 1, 0⟩, ⟨65, 0, 0, 0⟩]) 66 = false ∧
    isKeyDown (handleGlfwKeyCallback initialInputState 66 0 GLFW_PRESS 0) 66 = true ∧
    isKeyDown (handleGlfwKeyCallback
        (handleGlfwKeyCallback initialInputState 66 0 GLFW_PRESS 0)
        66 0 GLFW_RELEASE 0) 66 = false :=
  ⟨(isKeyDown_default_press_release 66).2.1 [⟨65, 0, 1, 0⟩, ⟨65, 0, 0, 0⟩]
      (by decide),
   (isKeyDown_default_press_release 66).2.2.1 initialInputState 0 0,
   (isKeyDown_default_press_release 66).2.2.2 initialInputState 0 0 0 0⟩

theorem renderLoopIteration_events {Col Mat : Type} (camera_matrix : Mat)
    (pending : List GlfwKeyEvent) (st : FrameState Col Mat) :
    ∀ e ∈ (renderLoopIteration camera_matrix pending st).2,
      isRenderLoopEvent e = true := by
  intro e he
  simp [renderLoopIteration] at he
  rcases he with h | h | h | h | h | h | h | h | h <;> subst h <;> rfl

theorem renderLoop_events {Col Mat : Type} (camera_matrix : Nat → Mat)
    (pending : Nat → List GlfwKeyEvent) :
    ∀ (fuel frame : Nat) (st : FrameState Col Mat),
      ∀ e ∈ (renderLoop camera_matrix pending fuel frame st).2,
        isRenderLoopEvent e = true := by
  intro fuel
  induction fuel with
  | zero =>
      intro frame st e he
      simp [renderLoop] at he
  | succ n ih =>
      intro frame st e he
      by_cases hc : st.input.windowShouldClose
      · simp [renderLoop, hc] at he
      · simp only [renderLoop, hc, Bool.false_eq_true, if_false,
          List.mem_append] at he
        rcases he with h | h
        · exact renderLoopIteration_events _ _ _ e h
        · exact ih (frame + 1) _ e h

theorem loopEvent_not_descriptor {Col Mat : Type} {e : Event Col Mat}
    (h : isRenderLoopEvent e = true) : isDescriptorWiring e = false := by
  cases e <;> simp_all [isRenderLoopEvent, isDescriptorWiring]

theorem loopEvent_no_destruction {Col Mat : Type} {e : Event Col Mat}
    (h : isRenderLoopEvent e = true) : destructionResource e = none := by
  cases e <;> simp_all [isRenderLoopEvent, destructionResource]

theorem loopEvent_no_creation {Col Mat : Type} {e : Event Col Mat}
    (h : isRenderLoopEvent e = true) : creationResource e = none := by
  cases e <;> simp_all [isRenderLoopEvent, creationResource]

theorem loopEvent_ne_deviceWaitIdle {Col Mat : Type} {e : Event Col Mat}
    (h : isRenderLoopEvent e = true) : e ≠ Event.deviceWaitIdle := by
  cases e <;> simp_all [isRenderLoopEvent]

theorem handleGlfwKeyCallback_shouldClose (st : InputState)
    (key scancode action mods : Int) :
    (handleGlfwKeyCallback st key scancode action mods).windowShouldClose =
      (st.windowShouldClose ||
        (decide (action = GLFW_RELEASE) && decide (key = GLFW_KEY_ESCAPE))) := by
  unfold handleGlfwKeyCallback
  by_cases hp : action = GLFW_PRESS
  · have hr : ¬action = GLFW_RELEASE := by rw [hp]; decide
    have hpr : ¬((GLFW_PRESS : Int) = GLFW_RELEASE) := by decide
    simp [hp, hr, hpr]
  · by_cases hr : action = GLFW_RELEASE
    · have hrp : ¬((GLFW_RELEASE : Int) = GLFW_PRESS) := by decide
      by_cases hesc : key = GLFW_KEY_ESCAPE <;> simp [hp, hr, hrp, hesc]
    · simp [hp, hr]

theorem glfwPollEvents_shouldClose :
    ∀ (pending : List GlfwKeyEvent) (st : InputState),
      (glfwPollEvents st pending).windowShouldClose =
        (st.windowShouldClose || pending.any fun e =>
          decide (e.action = GLFW_RELEASE) && decide (e.key = GLFW_KEY_ESCAPE)) := by
  intro pending
  induction pending with
  | nil => intro st; simp [glfwPollEvents]
  | cons e rest ih =>
      intro st
      show (glfwPollEvents
          (handleGlfwKeyCallback st e.key e.scancode e.action e.mods)
          rest).windowShouldClose = _
      rw [ih, handleGlfwKeyCallback_shouldClose]
      simp [Bool.or_assoc]

/-- C2: while running, every iteration performs exactly the sequence poll
events, update camera, fetch the view-projection matrix and overwrite the
transformation field, copy the full uniform struct into the GPU-visible
buffer, wait for the next swapchain image, record (begin, draw, end), present
— in this order; once the close-requested flag is set (in particular by an
Escape key release delivered during the poll), the loop-top check exits before
starting another iteration. -/
theorem renderLoop_iteration_order_and_close
    {Col Mat : Type} (camera_matrix : Nat → Mat)
    (pending : Nat → List GlfwKeyEvent) (fuel frame : Nat)
    (st : FrameState Col Mat) :
    (st.input.windowShouldClose = true →
      renderLoop camera_matrix pending (fuel + 1) frame st = (st, [])) ∧
    (st.input.windowShouldClose = false →
      renderLoop camera_matrix pending (fuel + 1) frame st =
        ((renderLoop camera_matrix pending fuel (frame + 1)
            (nextFrameState camera_matrix pending frame st)).1,
         runningIterationEvents camera_matrix frame st ++
           (renderLoop camera_matrix pending fuel (frame + 1)
              (nextFrameState camera_matrix pending frame st)).2)) ∧
    (∀ events : List GlfwKeyEvent,
      (∃ e ∈ events, e.key = GLFW_KEY_ESCAPE ∧ e.action = GLFW_RELEASE) →
      (glfwPollEvents st.input events).windowShouldClose = true) := by
  refine ⟨?_, ?_, ?_⟩
  · intro h
    simp [renderLoop, h]
  · intro h
    simp only [renderLoop, h, Bool.false_eq_true, if_false]
    rfl
  · intro events ⟨e, hmem, hkey, haction⟩
    rw [glfwPollEvents_shouldClose]
    have hany : (events.any fun e =>
        decide (e.action = GLFW_RELEASE) && decide (e.key = GLFW_KEY_ESCAPE)) = true :=
      List.any_eq_true.mpr ⟨e, hmem, by simp [hkey, haction]⟩
    simp [hany]

theorem renderLoop_iteration_order_and_close_witness :
    (renderLoop constCameraMatrix noPendingEvents 1 0 closedFrameStateNat =
      (closedFrameStateNat, [])) ∧
    (renderLoop constCameraMatrix noPendingEvents 1 0 openFrameStateNat =
      ((renderLoop constCameraMatrix noPendingEvents 0 1
          (nextFrameState constCameraMatrix noPendingEvents 0 openFrameStateNat)).1,
       runningIterationEvents constCameraMatrix 0 openFrameStateNat ++
         (renderLoop constCameraMatrix noPendingEvents 0 1
            (nextFrameState constCameraMatrix noPendingEvents 0 openFrameStateNat)).2)) ∧
    (glfwPollEvents openFrameStateNat.input escapeReleaseOnly).windowShouldClose = true :=
  ⟨(renderLoop_iteration_order_and_close constCameraMatrix noPendingEvents 0 0
      closedFrameStateNat).1 rfl,
   (renderLoop_iteration_order_and_close constCameraMatrix noPendingEvents 0 0
      openFrameStateNat).2.1 rfl,
   (renderLoop_iteration_order_and_close constCameraMatrix noPendingEvents 0 0
      openFrameStateNat).2.2 escapeReleaseOnly
     ⟨⟨GLFW_KEY_ESCAPE, 0, GLFW_RELEASE, 0⟩, by decide, rfl, rfl⟩⟩

/-- C5: in the trace of `main`, `vkDeviceWaitIdle` separates the run into a
prefix with no destroy call (and no earlier idle wait) and a suffix with no
presentation or command recording: all GPU work is waited for before any owned
resource is released. -/
theorem mainTrace_idle_wait_separates_teardown
    {Col Mat : Type} (camera_matrix : Nat → Mat)
    (pending : Nat → List GlfwKeyEvent) (fuel : Nat)
    (initial : UniformBufferData Col Mat) :
    ∃ pre post, mainTrace camera_matrix pending fuel initial =
        pre ++ Event.deviceWaitIdle :: post ∧
      (∀ e ∈ pre, destructionResource e = none ∧ e ≠ Event.deviceWaitIdle) ∧
      (∀ e ∈ post, isPresentationOrRecording e = false) := by
  refine ⟨mainSetupTrace initial ++
      (renderLoop camera_matrix pending fuel 0 (initialFrameState initial)).2,
    [Event.destroyCamera, Event.destroyUniformBuffer,
     Event.destroyGraphicsPipeline, Event.teapotDestroyBuffers,
     Event.destroyFramework, Event.glfwTerminate], ?_, ?_, ?_⟩
  · simp [mainTrace, mainTeardownTrace]
  · intro e he
    rcases List.mem_append.mp he with h | h
    · simp [mainSetupTrace] at h
      rcases h with h | h | h | h | h | h | h | h | h | h | h <;> subst h <;>
        exact ⟨rfl, fun hq => nomatch hq⟩
    · have hl := renderLoop_events camera_matrix pending fuel 0 _ e h
      exact ⟨loopEvent_no_destruction hl, loopEvent_ne_deviceWaitIdle hl⟩
  · intro e he
    simp at he
    rcases he with h | h | h | h | h | h <;> subst h <;> rfl

theorem mainTrace_idle_wait_separates_teardown_witness :
    ∃ pre post,
      mainTrace constCameraMatrix noPendingEvents 1
          (⟨0, 0⟩ : UniformBufferData Nat Nat) =
        pre ++ Event.deviceWaitIdle :: post ∧
      (∀ e ∈ pre, destructionResource e = none ∧ e ≠ Event.deviceWaitIdle) ∧
      (∀ e ∈ post, isPresentationOrRecording e = false) :=
  mainTrace_idle_wait_separates_teardown constCameraMatrix noPendingEvents 1 ⟨0, 0⟩

theorem renderLoop_color_invariant {Col Mat : Type} (camera_matrix : Nat → Mat)
    (pending : Nat → List GlfwKeyEvent) :
    ∀ (fuel frame : Nat) (st : FrameState Col Mat),
      (renderLoop camera_matrix pending fuel frame st).1.uniform_buffer_data.color =
          st.uniform_buffer_data.color ∧
      ∀ d : UniformBufferData Col Mat,
        Event.copyIntoUniformBuffer d ∈
            (renderLoop camera_matrix pending fuel frame st).2 →
          d.color = st.uniform_buffer_data.color := by
  intro fuel
  induction fuel with
  | zero =>
      intro frame st
      exact ⟨rfl, fun d hd => by simp [renderLoop] at hd⟩
  | succ n ih =>
      intro frame st
      by_cases hc : st.input.windowShouldClose
      · constructor
        · simp [renderLoop, hc]
        · intro d hd
          simp [renderLoop, hc] at hd
      · have hstep1 : (renderLoopIteration (camera_matrix frame) (pending frame)
            st).1.uniform_buffer_data.color = st.uniform_buffer_data.color := rfl
        obtain ⟨ih1, ih2⟩ :=
          ih (frame + 1) (renderLoopIteration (camera_matrix frame) (pending frame) st).1
        constructor
        · simp only [renderLoop, hc, Bool.false_eq_true, if_false]
          exact ih1.trans hstep1
        · intro d hd
          simp only [renderLoop, hc, Bool.false_eq_true, if_false,
            List.mem_append] at hd
          rcases hd with h | h
          · simp [renderLoopIteration] at h
            rw [h]
          · exact (ih2 d h).trans hstep1

theorem renderLoop_filter_descriptor_nil {Col Mat : Type}
    (camera_matrix : Nat → Mat) (pending : Nat → List GlfwKeyEvent)
    (fuel frame : Nat) (st : FrameState Col Mat) :
    (renderLoop camera_matrix pending fuel frame st).2.filter
        isDescriptorWiring = [] := by
  rw [List.filter_eq_nil]
  intro e he
  rw [loopEvent_not_descriptor (renderLoop_events camera_matrix pending fuel frame st e he)]
  simp

/-- C8: across every render-loop iteration only the transformation field of
the uniform data is mutated before the copy — the color field of the loop
state and of every struct copied into the GPU-visible buffer keeps its value
from loop entry — and no descriptor pool, layout or set is created or written
inside the loop: over the whole run of `main`, descriptor wiring happens
exactly once, before the loop. -/
theorem renderLoop_color_const_descriptor_wiring_once
    {Col Mat : Type} (camera_matrix : Nat → Mat)
    (pending : Nat → List GlfwKeyEvent) (fuel frame : Nat)
    (st : FrameState Col Mat) (initial : UniformBufferData Col Mat) :
    (renderLoop camera_matrix pending fuel frame st).1.uniform_buffer_data.color =
        st.uniform_buffer_data.color ∧
    (∀ d : UniformBufferData Col Mat,
      Event.copyIntoUniformBuffer d ∈
          (renderLoop camera_matrix pending fuel frame st).2 →
        d.color = st.uniform_buffer_data.color) ∧
    (renderLoop camera_matrix pending fuel frame st).2.filter
        isDescriptorWiring = [] ∧
    (mainTrace camera_matrix pending fuel initial).filter isDescriptorWiring =
      [Event.createDescriptorPool, Event.createDescriptorSetLayout,
       Event.allocateDescriptorSet, Event.updateDescriptorSets] := by
  obtain ⟨h1, h2⟩ := renderLoop_color_invariant camera_matrix pending fuel frame st
  refine ⟨h1, h2, renderLoop_filter_descriptor_nil camera_matrix pending fuel frame st, ?_⟩
  unfold mainTrace
  rw [List.filter_append, List.filter_append,
    renderLoop_filter_descriptor_nil camera_matrix pending fuel 0
      (initialFrameState initial)]
  rfl

theorem renderLoop_color_const_descriptor_wiring_once_witness :
    (Event.copyIntoUniformBuffer (⟨7, 0⟩ : UniformBufferData Nat Nat) ∈
      (renderLoop constCameraMatrix noPendingEvents 1 0
        (initialFrameState ⟨7, 3⟩)).2) ∧
    (⟨7, 0⟩ : UniformBufferData Nat Nat).color =
      (initialFrameState (⟨7, 3⟩ : UniformBufferData Nat Nat)).uniform_buffer_data.color :=
  ⟨by decide,
   (renderLoop_color_const_descriptor_wiring_once constCameraMatrix
      noPendingEvents 1 0 (initialFrameState ⟨7, 3⟩) ⟨7, 3⟩).2.1
     ⟨7, 0⟩ (by decide)⟩

theorem renderLoop_filterMap_destruction_nil {Col Mat : Type}
    (camera_matrix : Nat → Mat) (pending : Nat → List GlfwKeyEvent)
    (fuel frame : Nat) (st : FrameState Col Mat) :
    (renderLoop camera_matrix pending fuel frame st).2.filterMap
        destructionResource = [] := by
  rw [List.filterMap_eq_nil]
  intro e he
  exact loopEvent_no_destruction
    (renderLoop_events camera_matrix pending fuel frame st e he)

theorem renderLoop_filterMap_creation_nil {Col Mat : Type}
    (camera_matrix : Nat → Mat) (pending : Nat → List GlfwKeyEvent)
    (fuel frame : Nat) (st : FrameState Col Mat) :
    (renderLoop camera_matrix pending fuel frame st).2.filterMap
        creationResource = [] := by
  rw [List.filterMap_eq_nil]
  intro e he
  exact loopEvent_no_creation
    (renderLoop_events camera_matrix pending fuel frame st e he)

/-- C4 counterexample: on a concrete run the destruction sequence is not the
strict reverse of the creation sequence — the teapot geometry buffers are
created last (after the camera) but destroyed only fourth. -/
theorem mainTrace_teardown_not_reverse_creation :
    destructionOrder (mainTrace constCameraMatrix noPendingEvents 0
        (⟨0, 0⟩ : UniformBufferData Nat Nat)) ≠
      (creationOrder (mainTrace constCameraMatrix noPendingEvents 0
        (⟨0, 0⟩ : UniformBufferData Nat Nat))).reverse := by
  decide

/-- C4 (amended): after the render loop exits, teardown destroys the owned
resources in the fixed order camera, uniform buffer (and its backing memory),
pipeline, geometry buffers, framework-owned swapchain/device context, then the
window; this is not the strict reverse of the creation order (window,
framework, pipeline, uniform buffer, camera, geometry buffers), since the
geometry buffers are created last but destroyed fourth. -/
theorem mainTrace_teardown_sequence {Col Mat : Type}
    (camera_matrix : Nat → Mat) (pending : Nat → List GlfwKeyEvent)
    (fuel : Nat) (initial : UniformBufferData Col Mat) :
    destructionOrder (mainTrace camera_matrix pending fuel initial) =
      [Resource.camera, Resource.uniformBuffer, Resource.pipeline,
       Resource.geometryBuffers, Resource.framework, Resource.window] ∧
    creationOrder (mainTrace camera_matrix pending fuel initial) =
      [Resource.window, Resource.framework, Resource.pipeline,
       Resource.uniformBuffer, Resource.camera, Resource.geometryBuffers] ∧
    destructionOrder (mainTrace camera_matrix pending fuel initial) ≠
      (creationOrder (mainTrace camera_matrix pending fuel initial)).reverse := by
  have hd : destructionOrder (mainTrace camera_matrix pending fuel initial) =
      [Resource.camera, Resource.uniformBuffer, Resource.pipeline,
       Resource.geometryBuffers, Resource.framework, Resource.window] := by
    unfold destructionOrder mainTrace
    rw [List.filterMap_append, List.filterMap_append,
      renderLoop_filterMap_destruction_nil]
    rfl
  have hc : creationOrder (mainTrace camera_matrix pending fuel initial) =
      [Resource.window, Resource.framework, Resource.pipeline,
       Resource.uniformBuffer, Resource.camera, Resource.geometryBuffers] := by
    unfold creationOrder mainTrace
    rw [List.filterMap_append, List.filterMap_append,
      renderLoop_filterMap_creation_nil]
    rfl
  refine ⟨hd, hc, ?_⟩
  rw [hd, hc]
  decide

theorem mainTrace_teardown_sequence_witness :
    destructionOrder (mainTrace constCameraMatrix noPendingEvents 1
        (⟨0, 0⟩ : UniformBufferData Nat Nat)) =
      [Resource.camera, Resource.uniformBuffer, Resource.pipeline,
       Resource.geometryBuffers, Resource.framework, Resource.window] ∧
    creationOrder (mainTrace constCameraMatrix noPendingEvents 1
        (⟨0, 0⟩ : UniformBufferData Nat Nat)) =
      [Resource.window, Resource.framework, Resource.pipeline,
       Resource.uniformBuffer, Resource.camera, Resource.geometryBuffers] ∧
    destructionOrder (mainTrace constCameraMatrix noPendingEvents 1
        (⟨0, 0⟩ : UniformBufferData Nat Nat)) ≠
      (creationOrder (mainTrace constCameraMatrix noPendingEvents 1
        (⟨0, 0⟩ : UniformBufferData Nat Nat))).reverse :=
  mainTrace_teardown_sequence constCameraMatrix noPendingEvents 1 ⟨0, 0⟩

end VulkanMain
